import Mathlib

/-!
# Verification of the histolab random tile sampler (`histolab/tiler.py`)

Shallow embedding of the `RandomTiler` class: its constructor check, the
box-mask resolution (`box_mask`, `box_mask_lvl`), the random coordinate
sampler (`_random_tile_coordinates`), the rejection-sampling generator
(`_random_tiles_generator`, embedded as a fuel-indexed run function over an
explicit state), the extraction driver (`extract`), and the filename builder
(`_tile_filename`).

External collaborators (the `Slide` and `Tile` objects, numpy's global
pseudo-random state, and the helpers `scale_coordinates` / `resize_mask`
from `histolab/util.py`, which are not part of the sources) are modelled as
explicit structures and functions, each documented at its definition.

Python machine-level details: all counters and pixel coordinates are
non-negative integers and stay far from any overflow, so they are embedded
as `Nat`; a Python `ValueError` is embedded as the `Except`/error branch.
-/

deriving instance DecidableEq for Except

namespace Histolab

/-- A pair of upper-left / bottom-right pixel coordinates, as in
`histolab.types.CoordinatePair` (fields `x_ul, y_ul, x_br, y_br`). -/
structure CoordinatePair where
  x_ul : Nat
  y_ul : Nat
  x_br : Nat
  y_br : Nat
deriving DecidableEq

/-- Model of the external `Tile` collaborator: the only observable the
sampler uses is the boolean `has_enough_tissue()` predicate. -/
structure Tile where
  has_enough_tissue : Bool
deriving DecidableEq

/-- Model of the external `Slide` collaborator (spec section 6): level-0
`dimensions` as `(width, height)`, per-level `level_dimensions`, the level-0
`biggest_tissue_box_mask` as a height-major boolean array (list of rows),
and `extract_tile`, which fails with a `ValueError` (the error branch) when
the requested box is invalid for the slide. -/
structure Slide where
  dimensions : Nat × Nat
  level_dimensions : Nat → Nat × Nat
  biggest_tissue_box_mask : List (List Bool)
  extract_tile : CoordinatePair → Nat → Except Unit Tile

/-- Model of numpy's global pseudo-random state.  numpy's actual Mersenne
Twister is an external library component; it is modelled by a concrete
deterministic generator (a 32-bit linear congruential generator), which
preserves exactly what the tiler relies on: the state is global, it is a
deterministic function of the last `np.random.seed` call, and each
`np.random.choice` call consumes it deterministically. -/
abbrev RngState := Nat

/-- One step of the modelled generator (Numerical-Recipes LCG, mod 2^32). -/
def lcgStep (s : RngState) : RngState :=
  (1664525 * s + 1013904223) % 4294967296

/-- Model of `np.random.seed(seed)`: the global state becomes a function of
`seed` alone (seeds are 32-bit unsigned integers). -/
def npRandomSeed (seed : Nat) : RngState :=
  seed % 4294967296

/-- Model of `np.random.choice(l)` on a 1-D array: raises `ValueError` when
the array is empty, otherwise returns one of its elements (selected by the
current random state) together with the advanced state. -/
def npRandomChoice (l : List Nat) (s : RngState) : Except Unit (Nat × RngState) :=
  if h : l.length = 0 then .error ()
  else .ok (l.get ⟨s % l.length, Nat.mod_lt _ (Nat.pos_of_ne_zero h)⟩, lcgStep s)

/-- Model of `np.ones(shape, dtype="bool")` for a 2-D `shape = (rows, cols)`:
an all-`true` height-major array. -/
def np_ones (shape : Nat × Nat) : List (List Bool) :=
  List.replicate shape.1 (List.replicate shape.2 true)

/-- The row-major list of `(row, col)` index pairs of the `true` entries of a
2-D boolean array, as enumerated by `np.where(mask)`. -/
def trueIndices (mask : List (List Bool)) : List (Nat × Nat) :=
  (List.range mask.length).flatMap (fun i =>
    (List.range ((mask.getD i []).length)).filterMap (fun j =>
      if (mask.getD i []).getD j false then some (i, j) else none))

/-- Model of `np.where(mask)[0]`: the row indices of the `true` entries, row-major. -/
def npWhereRows (mask : List (List Bool)) : List Nat :=
  (trueIndices mask).map Prod.fst

/-- Model of `np.where(mask)[1]`: the column indices of the `true` entries, row-major. -/
def npWhereCols (mask : List (List Bool)) : List Nat :=
  (trueIndices mask).map Prod.snd

/-- Rounding of the rational `c * t / r` to the nearest integer, computed in
`Nat` as `(2 * c * t + r) / (2 * r)`. -/
def roundRatio (c t r : Nat) : Nat :=
  (2 * c * t + r) / (2 * r)

/-- Modelled from the spec: `scale_coordinates` lives in `histolab/util.py`,
which is not among the sources here; spec section 4.1 defines it as "for
each of the four coordinates, multiply by `target_dimension /
reference_dimension` along the matching axis (x uses width ratio, y uses
height ratio), then round to the nearest integer pixel". -/
def scale_coordinates (reference_coords : CoordinatePair)
    (reference_size target_size : Nat × Nat) : CoordinatePair :=
  ⟨roundRatio reference_coords.x_ul target_size.1 reference_size.1,
   roundRatio reference_coords.y_ul target_size.2 reference_size.2,
   roundRatio reference_coords.x_br target_size.1 reference_size.1,
   roundRatio reference_coords.y_br target_size.2 reference_size.2⟩

/-- Modelled from the spec: `resize_mask` lives in `histolab/util.py`, which
is not among the sources here; spec section 4.2 asks for a label-preserving
resize of a height-major mask to the target level's `(width, height)`
dimensions.  Modelled as nearest-neighbour sampling of the source mask. -/
def resize_mask (mask : List (List Bool)) (target_dimensions : Nat × Nat) :
    List (List Bool) :=
  let srcH := mask.length
  let srcW := (mask.headD []).length
  (List.range target_dimensions.2).map (fun i =>
    (List.range target_dimensions.1).map (fun j =>
      (mask.getD (i * srcH / target_dimensions.2) []).getD
        (j * srcW / target_dimensions.1) false))

/-- The `RandomTiler` configuration (the attributes stored by `__init__`).
The Python `prefix` attribute is named `prefix_str` because `prefix` is a
reserved word in Lean. -/
structure RandomTiler where
  tile_size : Nat × Nat
  n_tiles : Nat
  level : Nat
  seed : Nat
  check_tissue : Bool
  prefix_str : String
  suffix : String
  max_iter : Nat
deriving DecidableEq

/-- Embedding of `RandomTiler.__init__`: the `assert max_iter >= n_tiles` check (whose
message is the first string literal of the assert statement), followed by
storing every argument unchanged as an attribute. -/
def RandomTiler.init (tile_size : Nat × Nat) (n_tiles level seed : Nat)
    (check_tissue : Bool) (prefix_str suffix : String) (max_iter : Nat) :
    Except String RandomTiler :=
  if n_tiles ≤ max_iter then
    .ok ⟨tile_size, n_tiles, level, seed, check_tissue, prefix_str, suffix, max_iter⟩
  else
    .error "The maximum number of iterations must be grater than or equal to the "

/-- Embedding of `RandomTiler.box_mask`: the tissue box mask when `check_tissue` is set,
otherwise `np.ones(slide.dimensions[::-1], dtype="bool")` (height-major
all-`true`).  The `@lru_cache` decorator on the source method only memoizes
this pure computation, so it is value-transparent and not modelled. -/
def box_mask (cfg : RandomTiler) (slide : Slide) : List (List Bool) :=
  if cfg.check_tissue then slide.biggest_tissue_box_mask
  else np_ones (slide.dimensions.2, slide.dimensions.1)

/-- Embedding of `RandomTiler.box_mask_lvl`: the level-0 box mask, resized to the target
level's dimensions when `level != 0` and returned unchanged otherwise.
Like `box_mask`, the `@lru_cache` memoization is value-transparent. -/
def box_mask_lvl (cfg : RandomTiler) (slide : Slide) : List (List Bool) :=
  if cfg.level ≠ 0 then
    resize_mask (box_mask cfg slide) (slide.level_dimensions cfg.level)
  else
    box_mask cfg slide

/-- The two `np.random.choice` draws of `_random_tile_coordinates`:
`x_ul_lvl = np.random.choice(np.where(box_mask_lvl)[1])` followed by
`y_ul_lvl = np.random.choice(np.where(box_mask_lvl)[0])`, threading the
global random state through both draws. -/
def samplePixel (mask : List (List Bool)) (rng : RngState) :
    Except Unit ((Nat × Nat) × RngState) :=
  match npRandomChoice (npWhereCols mask) rng with
  | .error e => .error e
  | .ok (x_ul_lvl, rng1) =>
    match npRandomChoice (npWhereRows mask) rng1 with
    | .error e => .error e
    | .ok (y_ul_lvl, rng2) => .ok ((x_ul_lvl, y_ul_lvl), rng2)

/-- Embedding of `RandomTiler._random_tile_coordinates`: draw the upper-left pixel, form
the tile-sized box at the target level, and rescale it to level 0 with
`scale_coordinates`.  The error branch is the `ValueError` that
`np.random.choice` raises on an empty index array (an empty mask). -/
def _random_tile_coordinates (cfg : RandomTiler) (slide : Slide)
    (rng : RngState) : Except Unit (CoordinatePair × RngState) :=
  match samplePixel (box_mask_lvl cfg slide) rng with
  | .error e => .error e
  | .ok ((x_ul_lvl, y_ul_lvl), rng') =>
    .ok (scale_coordinates
          ⟨x_ul_lvl, y_ul_lvl,
           x_ul_lvl + cfg.tile_size.1, y_ul_lvl + cfg.tile_size.2⟩
          (slide.level_dimensions cfg.level)
          (slide.level_dimensions 0), rng')

/-- The state carried across the iterations of the `while True` loop of
`_random_tiles_generator`: the two counters plus the global random state. -/
structure GenState where
  iteration : Nat
  valid_tile_counter : Nat
  rng : RngState
deriving DecidableEq

/-- Outcome of one iteration of the generator loop: continue looping,
break out of the loop, or terminate with an uncaught exception; the first
two carry the (optional) tile yielded during that iteration. -/
inductive StepOut where
  | cont (st : GenState) (yld : Option (Tile × CoordinatePair))
  | stop (st : GenState) (yld : Option (Tile × CoordinatePair))
  | fail (st : GenState)
deriving DecidableEq

/-- One iteration of the `while True` body of `_random_tiles_generator`:
increment `iteration`; sample coordinates (an uncaught `ValueError` from the
empty-mask `np.random.choice` escapes the generator — it is raised outside
the `try` block); call `slide.extract_tile` and on `ValueError` decrement
`iteration` back and `continue` (skipping both stop checks); otherwise
yield when `check_tissue` is unset or the tile has enough tissue, then
break when `max_iter` is truthy and `iteration > max_iter`, or when
`valid_tile_counter > n_tiles`. -/
def genStep (cfg : RandomTiler) (slide : Slide) (st : GenState) : StepOut :=
  let iteration := st.iteration + 1
  match _random_tile_coordinates cfg slide st.rng with
  | .error _ => .fail ⟨iteration, st.valid_tile_counter, st.rng⟩
  | .ok (tile_wsi_coords, rng') =>
    match slide.extract_tile tile_wsi_coords cfg.level with
    | .error _ => .cont ⟨iteration - 1, st.valid_tile_counter, rng'⟩ none
    | .ok tile =>
      let accept := !cfg.check_tissue || tile.has_enough_tissue
      let valid := if accept then st.valid_tile_counter + 1 else st.valid_tile_counter
      let yld : Option (Tile × CoordinatePair) :=
        if accept then some (tile, tile_wsi_coords) else none
      if cfg.max_iter ≠ 0 ∧ cfg.max_iter < iteration then .stop ⟨iteration, valid, rng'⟩ yld
      else if cfg.n_tiles < valid then .stop ⟨iteration, valid, rng'⟩ yld
      else .cont ⟨iteration, valid, rng'⟩ yld

/-- How a run of the generator ended: a `break` (`stopped`), an uncaught
exception (`errored`), or the modelling fuel ran out before either
(`outOfFuel` — the loop itself has no such case and may run forever). -/
inductive RunStatus where
  | stopped
  | errored
  | outOfFuel
deriving DecidableEq

/-- Embedding of `RandomTiler._random_tiles_generator`, as a fuel-indexed run of the loop
from a given state: the list of yielded `(tile, level-0 coords)` pairs in
order, the final loop state, and how the run ended.  `fuel` bounds the
number of loop iterations modelled; it is not part of the source, which
loops unboundedly. -/
def _random_tiles_generator (cfg : RandomTiler) (slide : Slide) :
    Nat → GenState → List (Tile × CoordinatePair) × GenState × RunStatus
  | 0, st => ([], st, .outOfFuel)
  | fuel + 1, st =>
    match genStep cfg slide st with
    | .fail st' => ([], st', .errored)
    | .stop st' yld => (yld.toList, st', .stopped)
    | .cont st' yld =>
      let rest := _random_tiles_generator cfg slide fuel st'
      (yld.toList ++ rest.1, rest.2.1, rest.2.2)

/-- Embedding of `RandomTiler._tile_filename`: the f-string
`{prefix}tile_{tiles_counter}_level{level}_{x_ul_wsi}-{y_ul_wsi}-{x_br_wsi}-{y_br_wsi}{suffix}`. -/
def _tile_filename (cfg : RandomTiler) (tile_wsi_coords : CoordinatePair)
    (tiles_counter : Nat) : String :=
  cfg.prefix_str ++ "tile_" ++ toString tiles_counter ++ "_level" ++
    toString cfg.level ++ "_" ++ toString tile_wsi_coords.x_ul ++ "-" ++
    toString tile_wsi_coords.y_ul ++ "-" ++ toString tile_wsi_coords.x_br ++
    "-" ++ toString tile_wsi_coords.y_br ++ cfg.suffix

/-- The `for tiles_counter, (tile, tile_wsi_coords) in enumerate(...)` loop
of `extract`: save each yielded tile under its filename (collected here as
the list of `(filename, coords)` pairs, in save order) and track the Python
`tiles_counter` variable, which is 0 before the loop and is rebound to the
current zero-based index on each pass — so after the loop it is the LAST
index (0 for an empty sequence), and that value is what the final summary
line reports. -/
def saveLoop (cfg : RandomTiler) (idx last : Nat) :
    List (Tile × CoordinatePair) → List (String × CoordinatePair) × Nat
  | [] => ([], last)
  | (_, tile_wsi_coords) :: rest =>
    let fname := _tile_filename cfg tile_wsi_coords idx
    let r := saveLoop cfg (idx + 1) idx rest
    ((fname, tile_wsi_coords) :: r.1, r.2)

/-- What a completed `extract` call did: the saved tiles (filename and
level-0 coordinates, in order) and the count reported by the final
`print(f"{tiles_counter} Random Tiles have been saved.")` line. -/
structure ExtractResult where
  saved : List (String × CoordinatePair)
  reported : Nat
deriving DecidableEq

/-- Embedding of `RandomTiler.extract`: seed the global random state with
`np.random.seed(self.seed)` (discarding whatever state `initRng` it held
before), drain `_random_tiles_generator`, saving each tile; an exception
escaping the generator propagates out of `extract` (error branch).  `fuel`
bounds the number of generator iterations modelled. -/
def extract (cfg : RandomTiler) (slide : Slide) (fuel : Nat)
    (_initRng : RngState) : Except Unit ExtractResult :=
  let run := _random_tiles_generator cfg slide fuel ⟨0, 0, npRandomSeed cfg.seed⟩
  if run.2.2 = .errored then .error ()
  else .ok ⟨(saveLoop cfg 0 0 run.1).1, (saveLoop cfg 0 0 run.1).2⟩

/-! ## Concrete fixtures used by witnesses and counterexamples -/

/-- A 1x1 slide whose single pixel is tissue; `extract_tile` always
succeeds with a tile that has enough tissue. -/
def slideUnit : Slide where
  dimensions := (1, 1)
  level_dimensions := fun _ => (1, 1)
  biggest_tissue_box_mask := [[true]]
  extract_tile := fun _ _ => .ok ⟨true⟩

/-- A 1x1 slide whose single pixel is tissue; `extract_tile` always
succeeds but the tile never has enough tissue. -/
def slideNoTissue : Slide where
  dimensions := (1, 1)
  level_dimensions := fun _ => (1, 1)
  biggest_tissue_box_mask := [[true]]
  extract_tile := fun _ _ => .ok ⟨false⟩

/-- A 1x1 slide whose tissue mask has no `true` pixel at all. -/
def slideEmptyMask : Slide where
  dimensions := (1, 1)
  level_dimensions := fun _ => (1, 1)
  biggest_tissue_box_mask := [[false]]
  extract_tile := fun _ _ => .ok ⟨true⟩

/-- A 1x1 slide for which `extract_tile` always raises the invalid-region
`ValueError`. -/
def slideInvalidRegion : Slide where
  dimensions := (1, 1)
  level_dimensions := fun _ => (1, 1)
  biggest_tissue_box_mask := [[true]]
  extract_tile := fun _ _ => .error ()

/-- A 2x2 slide whose tissue mask is the diagonal: on-pixels at
`(row 0, col 0)` and `(row 1, col 1)` only. -/
def slideDiag : Slide where
  dimensions := (2, 2)
  level_dimensions := fun _ => (2, 2)
  biggest_tissue_box_mask := [[true, false], [false, true]]
  extract_tile := fun _ _ => .ok ⟨true⟩

/-- A configuration asking for zero tiles with a positive attempt budget. -/
def cfgZeroTiles : RandomTiler := ⟨(1, 1), 0, 0, 7, false, "", ".png", 5⟩

/-- A configuration with tissue checking on and a small attempt budget. -/
def cfgBudget : RandomTiler := ⟨(1, 1), 2, 0, 7, true, "", ".png", 4⟩

/-- A degenerate-tile configuration used on `slideDiag` (a `(0, 0)` tile
size makes the returned box coincide with the sampled pixel). -/
def cfgDiag : RandomTiler := ⟨(0, 0), 1, 0, 7, true, "", ".png", 5⟩

/-- A configuration with `max_iter = 0` (permitted since `n_tiles = 0`). -/
def cfgZeroIter : RandomTiler := ⟨(1, 1), 0, 0, 7, true, "", ".png", 0⟩

/-! ## C9: the coordinate transform at identical dimensions -/

/-- Rounding `c * r / r` to the nearest integer gives back `c` exactly. -/
theorem roundRatio_self (c r : Nat) (hr : 0 < r) : roundRatio c r r = c := by
  have h1 : 2 * c * r + r = r * (2 * c + 1) := by ring
  have h2 : 2 * r = r * 2 := by ring
  rw [roundRatio, h1, h2, Nat.mul_div_mul_left _ _ hr]
  omega

/-- C9: for every coordinate pair, `scale_coordinates` with identical
reference and target dimensions is exactly the identity: each of the four
coordinates is returned unchanged, not merely unchanged up to rounding. -/
theorem scale_coordinates_identity (coords : CoordinatePair) (w h : Nat)
    (hw : 0 < w) (hh : 0 < h) :
    scale_coordinates coords (w, h) (w, h) = coords := by
  cases coords
  simp [scale_coordinates, roundRatio_self _ _ hw, roundRatio_self _ _ hh]

/-- Witness for C9 at a concrete coordinate pair and dimensions. -/
theorem scale_coordinates_identity_witness :
    0 < 7 ∧ 0 < 9 ∧
      scale_coordinates ⟨3, 4, 5, 6⟩ (7, 9) (7, 9) = (⟨3, 4, 5, 6⟩ : CoordinatePair) :=
  ⟨by decide, by decide,
    scale_coordinates_identity ⟨3, 4, 5, 6⟩ 7 9 (by decide) (by decide)⟩

/-! ## C4: the construction-time configuration check -/

/-- C4: constructing a `RandomTiler` with `max_iter < n_tiles` fails with
the configuration error; with `max_iter >= n_tiles` construction succeeds
and stores every argument unchanged. -/
theorem RandomTiler_init_spec (tile_size : Nat × Nat) (n_tiles level seed : Nat)
    (check_tissue : Bool) (p s : String) (max_iter : Nat) :
    (max_iter < n_tiles →
      RandomTiler.init tile_size n_tiles level seed check_tissue p s max_iter =
        .error "The maximum number of iterations must be grater than or equal to the ") ∧
    (n_tiles ≤ max_iter →
      RandomTiler.init tile_size n_tiles level seed check_tissue p s max_iter =
        .ok ⟨tile_size, n_tiles, level, seed, check_tissue, p, s, max_iter⟩) := by
  constructor
  · intro hlt
    rw [RandomTiler.init, if_neg (by omega)]
  · intro hle
    rw [RandomTiler.init, if_pos hle]

/-- Witness for C4: a failing and a succeeding concrete construction. -/
theorem RandomTiler_init_spec_witness :
    RandomTiler.init (1, 1) 5 0 7 true "" ".png" 3 =
      .error "The maximum number of iterations must be grater than or equal to the " ∧
    RandomTiler.init (1, 1) 5 0 7 true "" ".png" 10 =
      .ok ⟨(1, 1), 5, 0, 7, true, "", ".png", 10⟩ :=
  ⟨(RandomTiler_init_spec (1, 1) 5 0 7 true "" ".png" 3).1 (by decide),
   (RandomTiler_init_spec (1, 1) 5 0 7 true "" ".png" 10).2 (by decide)⟩

/-! ## C6: determinism of `extract` for a fixed seed -/

/-- C6: for a fixed seed, slide and configuration, two runs of `extract`
are identical whatever pseudo-random state was left behind beforehand:
`np.random.seed(self.seed)` at the start of `extract` makes the whole run
(the saved filename/coordinate sequence and the reported count) a function
of the configuration and slide alone. -/
theorem extract_deterministic (cfg : RandomTiler) (slide : Slide) (fuel : Nat)
    (r1 r2 : RngState) :
    extract cfg slide fuel r1 = extract cfg slide fuel r2 := rfl

/-! ## C3: invalid-region errors are absorbed without cost -/

/-- C3: when `slide.extract_tile` raises the invalid-region `ValueError`,
the loop body discards the attempt and continues: the iteration counter is
restored to its previous value, nothing is yielded, and the error is not
surfaced (the step is a `cont`, not a `fail` or `stop`). -/
theorem genStep_invalid_region (cfg : RandomTiler) (slide : Slide) (st : GenState)
    (coords : CoordinatePair) (rng' : RngState)
    (hcoords : _random_tile_coordinates cfg slide st.rng = .ok (coords, rng'))
    (herr : slide.extract_tile coords cfg.level = .error ()) :
    genStep cfg slide st = .cont ⟨st.iteration, st.valid_tile_counter, rng'⟩ none := by
  rw [genStep, hcoords]
  simp [herr]

/-- Witness for C3 on a slide that always raises the invalid-region error:
starting from counters `(5, 2)`, one step leaves them at `(5, 2)`, yields
nothing, and continues. -/
theorem genStep_invalid_region_witness :
    genStep cfgBudget slideInvalidRegion ⟨5, 2, 0⟩ =
      .cont ⟨5, 2, 1196435762⟩ none :=
  genStep_invalid_region cfgBudget slideInvalidRegion ⟨5, 2, 0⟩ ⟨0, 0, 1, 1⟩
    1196435762 (by decide) (by decide)

/-! ## C1: the two budgets of the rejection-sampling loop -/

/-- The invariant holding at the top of each pass of the `while True` loop:
had either stop condition been true at the end of the previous pass, the
loop would have broken. -/
def GenInv (cfg : RandomTiler) (st : GenState) : Prop :=
  st.valid_tile_counter ≤ cfg.n_tiles ∧
    (cfg.max_iter ≠ 0 → st.iteration ≤ cfg.max_iter)

/-- Case analysis of one loop iteration: a `cont` re-establishes the
invariant, a `stop` or `fail` leaves the counters within one unit of their
budgets, and in every case the valid-tile counter grows by exactly the
number of tiles yielded in that iteration. -/
theorem genStep_spec (cfg : RandomTiler) (slide : Slide) (st : GenState)
    (hinv : GenInv cfg st) :
    (match genStep cfg slide st with
     | .cont st' yld => GenInv cfg st' ∧
         st'.valid_tile_counter = st.valid_tile_counter + yld.toList.length
     | .stop st' yld =>
         (st'.valid_tile_counter ≤ cfg.n_tiles + 1 ∧
           (cfg.max_iter ≠ 0 → st'.iteration ≤ cfg.max_iter + 1)) ∧
         st'.valid_tile_counter = st.valid_tile_counter + yld.toList.length
     | .fail st' => st'.valid_tile_counter = st.valid_tile_counter ∧
         (cfg.max_iter ≠ 0 → st'.iteration ≤ cfg.max_iter + 1)) := by
  obtain ⟨hv, hi⟩ := hinv
  unfold genStep
  cases hc : _random_tile_coordinates cfg slide st.rng with
  | error e =>
    exact ⟨rfl, fun h0 => Nat.add_le_add_right (hi h0) 1⟩
  | ok pr =>
    obtain ⟨coords, rng'⟩ := pr
    dsimp only
    cases he : slide.extract_tile coords cfg.level with
    | error e =>
      dsimp only
      exact ⟨⟨hv, hi⟩, rfl⟩
    | ok tile =>
      dsimp only
      by_cases ha : (!cfg.check_tissue || tile.has_enough_tissue) = true
      all_goals first
        | (rw [Bool.not_eq_true] at ha
           simp only [ha, Bool.false_eq_true, if_false])
        | simp only [ha, eq_self_iff_true, if_true]
      all_goals split
      all_goals rename_i hcond
      all_goals split at hcond
      all_goals try split at hcond
      all_goals cases hcond
      all_goals try dsimp only
      all_goals refine ⟨⟨by (try dsimp only); omega,
        fun h0 => by (try dsimp only); omega⟩, rfl⟩

/-- Running the loop from any state satisfying the invariant keeps the
final counters within one unit of the budgets, and the valid-tile counter
accounts exactly for the yielded tiles. -/
theorem run_spec (cfg : RandomTiler) (slide : Slide) (fuel : Nat) (st : GenState)
    (hinv : GenInv cfg st) :
    (_random_tiles_generator cfg slide fuel st).2.1.valid_tile_counter
        = st.valid_tile_counter + (_random_tiles_generator cfg slide fuel st).1.length ∧
    (_random_tiles_generator cfg slide fuel st).2.1.valid_tile_counter ≤ cfg.n_tiles + 1 ∧
    (cfg.max_iter ≠ 0 →
      (_random_tiles_generator cfg slide fuel st).2.1.iteration ≤ cfg.max_iter + 1) := by
  induction fuel generalizing st with
  | zero =>
    obtain ⟨hv, hi⟩ := hinv
    refine ⟨rfl, ?_, fun h0 => ?_⟩
    · simp only [_random_tiles_generator]
      omega
    · have := hi h0
      simp only [_random_tiles_generator]
      omega
  | succ fuel ih =>
    have hstep := genStep_spec cfg slide st hinv
    obtain ⟨hv, hi⟩ := hinv
    unfold _random_tiles_generator
    cases hg : genStep cfg slide st with
    | fail st' =>
      rw [hg] at hstep
      have h1 := hstep.1
      have h2 := hstep.2
      simpa using ⟨h1, by omega, h2⟩
    | stop st' yld =>
      rw [hg] at hstep
      have h1 := hstep.1.1
      have h2 := hstep.1.2
      have h3 := hstep.2
      simpa using ⟨h3, h1, h2⟩
    | cont st' yld =>
      rw [hg] at hstep
      obtain ⟨hinv', hcount⟩ := hstep
      have ihs := ih st' hinv'
      have i1 := ihs.1
      have i2 := ihs.2.1
      have i3 := ihs.2.2
      simpa [List.length_append] using ⟨by omega, i2, i3⟩

/-- C1 (amended): from a fresh start and with a truthy budget
(`max_iter >= 1`), the generator yields at most `n_tiles + 1` tiles and
performs at most `max_iter + 1` counted sampling attempts (the iteration
counter nets out invalid-region discards).  The `+ 1` slack is forced by
the source's strict `>` in both stop checks, which lets one extra
iteration and one extra tile through. -/
theorem random_tiles_generator_budgets (cfg : RandomTiler) (slide : Slide)
    (fuel : Nat) (rng : RngState) (hmi : 1 ≤ cfg.max_iter) :
    (_random_tiles_generator cfg slide fuel ⟨0, 0, rng⟩).1.length ≤ cfg.n_tiles + 1 ∧
    (_random_tiles_generator cfg slide fuel ⟨0, 0, rng⟩).2.1.iteration ≤ cfg.max_iter + 1 := by
  have h := run_spec cfg slide fuel ⟨0, 0, rng⟩ ⟨Nat.zero_le _, fun _ => Nat.zero_le _⟩
  exact ⟨by omega, h.2.2 (by omega)⟩

/-- Witness for C1 (amended) at a concrete slide and configuration. -/
theorem random_tiles_generator_budgets_witness :
    1 ≤ cfgBudget.max_iter ∧
    (_random_tiles_generator cfgBudget slideUnit 10 ⟨0, 0, 0⟩).1.length ≤ cfgBudget.n_tiles + 1 ∧
    (_random_tiles_generator cfgBudget slideUnit 10 ⟨0, 0, 0⟩).2.1.iteration ≤ cfgBudget.max_iter + 1 :=
  ⟨by decide, random_tiles_generator_budgets cfgBudget slideUnit 10 0 (by decide)⟩

/-- Counterexample to C1 as stated: with `n_tiles = 0` (a valid
configuration, `max_iter = 5 >= 0`) the generator yields one tile, one
more than `n_tiles`; and with `max_iter = 4` on a slide whose tiles never
pass the tissue check (and no invalid-region discards at all) the final
iteration counter is `5 > max_iter`. -/
theorem random_tiles_generator_budgets_counterexample :
    cfgZeroTiles.n_tiles ≤ cfgZeroTiles.max_iter ∧
    cfgZeroTiles.n_tiles <
      (_random_tiles_generator cfgZeroTiles slideUnit 10 ⟨0, 0, 0⟩).1.length ∧
    cfgBudget.n_tiles ≤ cfgBudget.max_iter ∧
    cfgBudget.max_iter <
      (_random_tiles_generator cfgBudget slideNoTissue 10 ⟨0, 0, 0⟩).2.1.iteration := by
  decide

/-! ## C2: extraction that yields no tiles -/

/-- C2 (amended): when the resolved target-level mask has no `true` pixel,
the very first sampling attempt raises an uncaught `ValueError` (from
`np.random.choice` on the empty index array, outside the generator's `try`
block) and `extract` propagates it instead of completing; whenever the
generator yields zero tiles *without* such an escaped error, `extract`
completes, saves nothing, and reports zero tiles saved. -/
theorem extract_zero_tiles :
    (∀ (cfg : RandomTiler) (slide : Slide) (fuel : Nat) (rng : RngState),
      1 ≤ fuel → trueIndices (box_mask_lvl cfg slide) = [] →
      extract cfg slide fuel rng = .error ()) ∧
    (∀ (cfg : RandomTiler) (slide : Slide) (fuel : Nat) (rng : RngState),
      (_random_tiles_generator cfg slide fuel ⟨0, 0, npRandomSeed cfg.seed⟩).1 = [] →
      (_random_tiles_generator cfg slide fuel ⟨0, 0, npRandomSeed cfg.seed⟩).2.2 ≠ .errored →
      extract cfg slide fuel rng = .ok ⟨[], 0⟩) := by
  constructor
  · intro cfg slide fuel rng hfuel hmask
    obtain ⟨fuel, rfl⟩ : ∃ k, fuel = k + 1 := ⟨fuel - 1, by omega⟩
    have hcols : npWhereCols (box_mask_lvl cfg slide) = [] := by
      simp [npWhereCols, hmask]
    have hsp : samplePixel (box_mask_lvl cfg slide) (npRandomSeed cfg.seed) =
        .error () := by
      rw [samplePixel, hcols]
      simp [npRandomChoice]
    have hrtc : _random_tile_coordinates cfg slide (npRandomSeed cfg.seed) =
        .error () := by
      rw [_random_tile_coordinates, hsp]
    have hstep : genStep cfg slide ⟨0, 0, npRandomSeed cfg.seed⟩ =
        .fail ⟨1, 0, npRandomSeed cfg.seed⟩ := by
      rw [genStep]
      dsimp only
      rw [hrtc]
    simp [extract, _random_tiles_generator, hstep]
  · intro cfg slide fuel rng hyld hst
    rw [extract]
    rw [if_neg hst, hyld]
    rfl

/-- Counterexample to C2 as stated: a slide whose mask has no `true` pixel
makes `extract` raise, rather than complete reporting zero tiles. -/
theorem extract_zero_tiles_counterexample :
    trueIndices (box_mask_lvl cfgBudget slideEmptyMask) = [] ∧
    extract cfgBudget slideEmptyMask 5 0 = .error () := by decide

/-- Witness for C2 (amended): the empty-mask slide errors; a slide whose
tiles never pass the tissue check exhausts the budget with zero yields and
completes, reporting zero tiles saved. -/
theorem extract_zero_tiles_witness :
    extract cfgBudget slideEmptyMask 5 0 = .error () ∧
    extract cfgBudget slideNoTissue 10 0 = .ok ⟨[], 0⟩ :=
  ⟨extract_zero_tiles.1 cfgBudget slideEmptyMask 5 0 (by decide) (by decide),
   extract_zero_tiles.2 cfgBudget slideNoTissue 10 0 (by decide) (by decide)⟩

/-! ## C5: what the coordinate sampler actually draws -/

/-- Every index pair enumerated by `np.where` points at a `true` entry. -/
theorem mem_trueIndices (mask : List (List Bool)) (p : Nat × Nat)
    (hp : p ∈ trueIndices mask) : (mask.getD p.1 []).getD p.2 false = true := by
  simp only [trueIndices, List.mem_flatMap, List.mem_filterMap, List.mem_range] at hp
  obtain ⟨i, hi, j, hj, hpj⟩ := hp
  split at hpj
  · next hb =>
    cases hpj
    exact hb
  · cases hpj

/-- Every column index in `np.where(mask)[1]` is the column of some `true`
entry. -/
theorem mem_npWhereCols (mask : List (List Bool)) (x : Nat)
    (hx : x ∈ npWhereCols mask) :
    ∃ r, (mask.getD r []).getD x false = true := by
  simp only [npWhereCols, List.mem_map] at hx
  obtain ⟨p, hp, rfl⟩ := hx
  exact ⟨p.1, mem_trueIndices mask p hp⟩

/-- Every row index in `np.where(mask)[0]` is the row of some `true`
entry. -/
theorem mem_npWhereRows (mask : List (List Bool)) (y : Nat)
    (hy : y ∈ npWhereRows mask) :
    ∃ c, (mask.getD y []).getD c false = true := by
  simp only [npWhereRows, List.mem_map] at hy
  obtain ⟨p, hp, rfl⟩ := hy
  exact ⟨p.2, mem_trueIndices mask p hp⟩

/-- A successful `np.random.choice` returns an element of its argument. -/
theorem npRandomChoice_mem (l : List Nat) (s : RngState) (v : Nat) (s' : RngState)
    (h : npRandomChoice l s = .ok (v, s')) : v ∈ l := by
  rw [npRandomChoice] at h
  split at h
  · cases h
  · simp only [Except.ok.injEq, Prod.mk.injEq] at h
    exact h.1 ▸ List.get_mem l _ _

/-- A successful `samplePixel` draws its x from the column list and its y
from the row list of the mask's `true` entries. -/
theorem samplePixel_mem (mask : List (List Bool)) (rng : RngState)
    (x y : Nat) (rng2 : RngState)
    (h : samplePixel mask rng = .ok ((x, y), rng2)) :
    x ∈ npWhereCols mask ∧ y ∈ npWhereRows mask := by
  rw [samplePixel] at h
  cases hc1 : npRandomChoice (npWhereCols mask) rng with
  | error e =>
    rw [hc1] at h
    cases h
  | ok pr1 =>
    obtain ⟨x1, rng1⟩ := pr1
    rw [hc1] at h
    dsimp only at h
    cases hc2 : npRandomChoice (npWhereRows mask) rng1 with
    | error e =>
      rw [hc2] at h
      cases h
    | ok pr2 =>
      obtain ⟨y1, rng21⟩ := pr2
      rw [hc2] at h
      simp only [Except.ok.injEq, Prod.mk.injEq] at h
      obtain ⟨⟨hx, hy⟩, hr⟩ := h
      exact ⟨hx ▸ npRandomChoice_mem _ _ _ _ hc1,
        hy ▸ npRandomChoice_mem _ _ _ _ hc2⟩

/-- C5 (amended): a successful `_random_tile_coordinates` call draws `x`
among the *column* indices of the mask's `true` entries and `y`
(independently) among the *row* indices, then returns the rescaled
tile-sized box anchored at `(x, y)`.  Each of `x` and `y` is therefore the
coordinate of some on-pixel along its own axis, but — the two draws being
independent marginals — the pair `(x, y)` itself need not be an on-pixel
of the mask. -/
theorem random_tile_coordinates_spec (cfg : RandomTiler) (slide : Slide)
    (rng : RngState) (coords : CoordinatePair) (rng' : RngState)
    (h : _random_tile_coordinates cfg slide rng = .ok (coords, rng')) :
    ∃ x y,
      samplePixel (box_mask_lvl cfg slide) rng = .ok ((x, y), rng') ∧
      coords = scale_coordinates ⟨x, y, x + cfg.tile_size.1, y + cfg.tile_size.2⟩
        (slide.level_dimensions cfg.level) (slide.level_dimensions 0) ∧
      (∃ r, ((box_mask_lvl cfg slide).getD r []).getD x false = true) ∧
      (∃ c, ((box_mask_lvl cfg slide).getD y []).getD c false = true) := by
  rw [_random_tile_coordinates] at h
  cases hsp : samplePixel (box_mask_lvl cfg slide) rng with
  | error e =>
    rw [hsp] at h
    cases h
  | ok pr =>
    obtain ⟨⟨x, y⟩, rng2⟩ := pr
    rw [hsp] at h
    simp only [Except.ok.injEq, Prod.mk.injEq] at h
    obtain ⟨hcoords, hrng⟩ := h
    subst hrng
    obtain ⟨hxmem, hymem⟩ := samplePixel_mem _ _ _ _ _ hsp
    exact ⟨x, y, rfl, hcoords.symm, mem_npWhereCols _ _ hxmem,
      mem_npWhereRows _ _ hymem⟩

/-- Counterexample to C5 as stated: on the diagonal mask, from random
state 0, the sampler draws the pixel `(x, y) = (0, 1)` (the degenerate
tile size and identity rescaling make the returned box coincide with the
sampled pixel), yet `mask[1][0]` is `false` — the sampled pair is NOT an
on-pixel even though the mask has on-pixels. -/
theorem random_tile_coordinates_counterexample :
    _random_tile_coordinates cfgDiag slideDiag 0 =
      .ok (⟨0, 1, 0, 1⟩, 1196435762) ∧
    ((box_mask_lvl cfgDiag slideDiag).getD 1 []).getD 0 false = false ∧
    ((box_mask_lvl cfgDiag slideDiag).getD 0 []).getD 0 false = true := by
  decide

/-- Witness for C5 (amended) on the diagonal-mask slide. -/
theorem random_tile_coordinates_spec_witness :
    _random_tile_coordinates cfgDiag slideDiag 0 =
      .ok (⟨0, 1, 0, 1⟩, 1196435762) ∧
    (∃ x y,
      samplePixel (box_mask_lvl cfgDiag slideDiag) 0 = .ok ((x, y), 1196435762) ∧
      (⟨0, 1, 0, 1⟩ : CoordinatePair) =
        scale_coordinates ⟨x, y, x + cfgDiag.tile_size.1, y + cfgDiag.tile_size.2⟩
          (slideDiag.level_dimensions cfgDiag.level) (slideDiag.level_dimensions 0) ∧
      (∃ r, ((box_mask_lvl cfgDiag slideDiag).getD r []).getD x false = true) ∧
      (∃ c, ((box_mask_lvl cfgDiag slideDiag).getD y []).getD c false = true)) :=
  ⟨by decide,
   random_tile_coordinates_spec cfgDiag slideDiag 0 ⟨0, 1, 0, 1⟩ 1196435762 (by decide)⟩

/-- A two-level slide: level 0 is 3x2 pixels, level 1 is 2x1. -/
def slideTwoLevel : Slide where
  dimensions := (3, 2)
  level_dimensions := fun l => if l = 0 then (3, 2) else (2, 1)
  biggest_tissue_box_mask := [[true, true, true], [true, true, true]]
  extract_tile := fun _ _ => .ok ⟨true⟩

/-- A configuration with tissue checking off, extracting at level 1. -/
def cfgNoCheck : RandomTiler := ⟨(1, 1), 1, 1, 7, false, "", ".png", 4⟩

/-! ## C7: the no-tissue-check mask -/

/-- Reading inside a replicated list with `getD` returns the replicated element. -/
theorem getD_replicate {α : Type} (n m : Nat) (a b : α) (h : n < m) :
    (List.replicate m a).getD n b = a := by
  simp [List.getD_eq_getElem?_getD, List.getElem?_replicate, h]

/-- The `headD` of a nonempty replicated list is the replicated element. -/
theorem headD_replicate {α : Type} (m : Nat) (a : α) (d : α) (h : 0 < m) :
    (List.replicate m a).headD d = a := by
  cases m with
  | zero => omega
  | succ k => simp [List.replicate_succ]

/-- C7: with `check_tissue = false` the target-level mask is all-`true`
and its height-major shape matches the configured level's pixel
dimensions; at `level = 0` it is exactly the `np.ones` mask built from
`slide.dimensions`, returned directly without a resize (it *is* the
`box_mask` value).  The hypotheses ask for a well-formed slide: positive
level-0 dimensions that agree with `level_dimensions(0)`. -/
theorem box_mask_lvl_no_check (cfg : RandomTiler) (slide : Slide)
    (hct : cfg.check_tissue = false)
    (hld : slide.level_dimensions 0 = slide.dimensions)
    (hw : 0 < slide.dimensions.1) (hh : 0 < slide.dimensions.2) :
    (box_mask_lvl cfg slide).length = (slide.level_dimensions cfg.level).2 ∧
    (∀ row ∈ box_mask_lvl cfg slide,
      row.length = (slide.level_dimensions cfg.level).1 ∧ ∀ b ∈ row, b = true) ∧
    (cfg.level = 0 → box_mask_lvl cfg slide = box_mask cfg slide) := by
  have hbm : box_mask cfg slide =
      List.replicate slide.dimensions.2 (List.replicate slide.dimensions.1 true) := by
    rw [box_mask, hct]
    simp [np_ones]
  by_cases hl : cfg.level = 0
  · have heq : box_mask_lvl cfg slide = box_mask cfg slide := by
      rw [box_mask_lvl, if_neg (by simp [hl])]
    refine ⟨?_, ?_, fun _ => heq⟩
    · rw [heq, hbm, hl, hld]
      simp
    · intro row hrow
      rw [heq, hbm] at hrow
      rw [List.eq_of_mem_replicate hrow]
      refine ⟨by rw [hl, hld]; simp, ?_⟩
      intro b hb
      exact List.eq_of_mem_replicate hb
  · have heq : box_mask_lvl cfg slide =
        resize_mask (box_mask cfg slide) (slide.level_dimensions cfg.level) := by
      rw [box_mask_lvl, if_pos hl]
    refine ⟨?_, ?_, fun h0 => absurd h0 hl⟩
    · rw [heq, resize_mask]
      simp
    · intro row hrow
      rw [heq, hbm, resize_mask] at hrow
      simp only [List.mem_map, List.mem_range, List.length_replicate] at hrow
      obtain ⟨i, hi, rfl⟩ := hrow
      refine ⟨by simp, ?_⟩
      intro b hb
      simp only [List.mem_map, List.mem_range, List.length_replicate,
        headD_replicate _ _ _ hh] at hb
      obtain ⟨j, hj, rfl⟩ := hb
      have hidx1 : i * slide.dimensions.2 / (slide.level_dimensions cfg.level).2
          < slide.dimensions.2 :=
        Nat.div_lt_of_lt_mul ((Nat.mul_lt_mul_right hh).mpr hi)
      have hidx2 : j * slide.dimensions.1 / (slide.level_dimensions cfg.level).1
          < slide.dimensions.1 :=
        Nat.div_lt_of_lt_mul ((Nat.mul_lt_mul_right hw).mpr hj)
      rw [getD_replicate _ _ _ _ hidx1, getD_replicate _ _ _ _ hidx2]

/-- Witness for C7 on a concrete two-level slide with `check_tissue`
off and `level = 1` (the resize branch). -/
theorem box_mask_lvl_no_check_witness :
    cfgNoCheck.check_tissue = false ∧
    ((box_mask_lvl cfgNoCheck slideTwoLevel).length =
        (slideTwoLevel.level_dimensions cfgNoCheck.level).2 ∧
      (∀ row ∈ box_mask_lvl cfgNoCheck slideTwoLevel,
        row.length = (slideTwoLevel.level_dimensions cfgNoCheck.level).1 ∧
          ∀ b ∈ row, b = true) ∧
      (cfgNoCheck.level = 0 →
        box_mask_lvl cfgNoCheck slideTwoLevel = box_mask cfgNoCheck slideTwoLevel)) :=
  ⟨by decide,
   box_mask_lvl_no_check cfgNoCheck slideTwoLevel (by decide) (by decide)
     (by decide) (by decide)⟩

/-! ## C8: the filenames of saved tiles -/

/-- The save loop writes, for the element at zero-based position `k` of
the yielded list (enumerated from `idx`), the filename built by
`_tile_filename` from that element's coordinates and its position. -/
theorem saveLoop_enumFrom (cfg : RandomTiler) (ys : List (Tile × CoordinatePair)) :
    ∀ (idx last : Nat),
      (saveLoop cfg idx last ys).1 =
        (ys.enumFrom idx).map (fun p => ( _tile_filename cfg p.2.2 p.1, p.2.2)) := by
  induction ys with
  | nil => intro idx last; rfl
  | cons hd tl ih =>
    intro idx last
    obtain ⟨t, c⟩ := hd
    rw [saveLoop]
    simp only [List.enumFrom, List.map_cons]
    exact congrArg _ (ih (idx + 1) idx)

/-- C8: a successful `extract` saves, for the `k`-th tile yielded by the
generator (zero-based), exactly the filename
`{prefix}tile_{k}_level{level}_{x_ul}-{y_ul}-{x_br}-{y_br}{suffix}` built
from the tile's level-0 box coordinates, pairing it with those
coordinates, in yield order. -/
theorem extract_filenames (cfg : RandomTiler) (slide : Slide) (fuel : Nat)
    (rng : RngState) (res : ExtractResult)
    (h : extract cfg slide fuel rng = .ok res) :
    res.saved =
      ((_random_tiles_generator cfg slide fuel ⟨0, 0, npRandomSeed cfg.seed⟩).1.enum).map
        (fun p => (cfg.prefix_str ++ "tile_" ++ toString p.1 ++ "_level" ++
          toString cfg.level ++ "_" ++ toString p.2.2.x_ul ++ "-" ++
          toString p.2.2.y_ul ++ "-" ++ toString p.2.2.x_br ++ "-" ++
          toString p.2.2.y_br ++ cfg.suffix, p.2.2)) := by
  rw [extract] at h
  split at h
  · cases h
  · simp only [Except.ok.injEq] at h
    subst h
    dsimp only
    rw [saveLoop_enumFrom]
    rfl

/-- Witness for C8: one tile is yielded and saved as
`tile_0_level0_0-0-1-1.png`. -/
theorem extract_filenames_witness :
    extract cfgZeroTiles slideUnit 10 0 =
      .ok ⟨[("tile_0_level0_0-0-1-1.png", ⟨0, 0, 1, 1⟩)], 0⟩ ∧
    (⟨[("tile_0_level0_0-0-1-1.png", ⟨0, 0, 1, 1⟩)], 0⟩ : ExtractResult).saved =
      ((_random_tiles_generator cfgZeroTiles slideUnit 10
          ⟨0, 0, npRandomSeed cfgZeroTiles.seed⟩).1.enum).map
        (fun p => (cfgZeroTiles.prefix_str ++ "tile_" ++ toString p.1 ++ "_level" ++
          toString cfgZeroTiles.level ++ "_" ++ toString p.2.2.x_ul ++ "-" ++
          toString p.2.2.y_ul ++ "-" ++ toString p.2.2.x_br ++ "-" ++
          toString p.2.2.y_br ++ cfgZeroTiles.suffix, p.2.2)) :=
  ⟨by decide, extract_filenames cfgZeroTiles slideUnit 10 0 _ (by decide)⟩

/-! ## C10: a zero `max_iter` disables the attempt budget -/

/-- The modelled `np.random.choice` on a nonempty array always succeeds. -/
theorem npRandomChoice_exists (l : List Nat) (s : RngState) (hl : l.length ≠ 0) :
    ∃ v, npRandomChoice l s = .ok (v, lcgStep s) := by
  rw [npRandomChoice, dif_neg hl]
  exact ⟨_, rfl⟩

/-- On a mask with at least one `true` pixel, `samplePixel` always
succeeds, consuming two random draws. -/
theorem samplePixel_exists (mask : List (List Bool)) (rng : RngState)
    (hmask : trueIndices mask ≠ []) :
    ∃ x y, samplePixel mask rng = .ok ((x, y), lcgStep (lcgStep rng)) := by
  have hc : (npWhereCols mask).length ≠ 0 := by
    rw [npWhereCols, List.length_map]
    intro h
    exact hmask (List.eq_nil_of_length_eq_zero h)
  have hr : (npWhereRows mask).length ≠ 0 := by
    rw [npWhereRows, List.length_map]
    intro h
    exact hmask (List.eq_nil_of_length_eq_zero h)
  obtain ⟨x, hx⟩ := npRandomChoice_exists _ rng hc
  obtain ⟨y, hy⟩ := npRandomChoice_exists _ (lcgStep rng) hr
  refine ⟨x, y, ?_⟩
  rw [samplePixel, hx]
  dsimp only
  rw [hy]

/-- When `check_tissue` is on, every extracted tile lacks tissue, the mask
is nonempty, and the valid-tile counter is within budget, one loop
iteration just advances the iteration counter and continues. -/
theorem genStep_starved (cfg : RandomTiler) (slide : Slide) (st : GenState)
    (h0 : cfg.max_iter = 0) (hct : cfg.check_tissue = true)
    (hext : ∀ c l, slide.extract_tile c l = .ok ⟨false⟩)
    (hmask : trueIndices (box_mask_lvl cfg slide) ≠ [])
    (hval : st.valid_tile_counter ≤ cfg.n_tiles) :
    ∃ rng', genStep cfg slide st =
      .cont ⟨st.iteration + 1, st.valid_tile_counter, rng'⟩ none := by
  obtain ⟨x, y, hsp⟩ := samplePixel_exists (box_mask_lvl cfg slide) st.rng hmask
  refine ⟨lcgStep (lcgStep st.rng), ?_⟩
  rw [genStep, _random_tile_coordinates, hsp]
  dsimp only
  rw [hext]
  simp [hct, h0, Nat.not_lt.mpr hval]

/-- C10: `max_iter = 0` passes the construction check when `n_tiles = 0`;
with a zero `max_iter` the truthiness guard `if self.max_iter and ...`
never fires, so the generator can only stop because the valid-tile counter
exceeded `n_tiles`; and on a slide where no sampled tile ever has enough
tissue (with `check_tissue` on and a nonempty mask) it never stops at all:
for every fuel bound the run yields nothing and is still going. -/
theorem max_iter_zero_starvation :
    (RandomTiler.init (1, 1) 0 0 7 true "" ".png" 0 =
      .ok ⟨(1, 1), 0, 0, 7, true, "", ".png", 0⟩) ∧
    (∀ (cfg : RandomTiler) (slide : Slide) (st st' : GenState)
        (yld : Option (Tile × CoordinatePair)), cfg.max_iter = 0 →
      genStep cfg slide st = .stop st' yld →
      cfg.n_tiles < st'.valid_tile_counter) ∧
    (∀ (cfg : RandomTiler) (slide : Slide), cfg.max_iter = 0 →
      cfg.check_tissue = true →
      (∀ c l, slide.extract_tile c l = .ok ⟨false⟩) →
      trueIndices (box_mask_lvl cfg slide) ≠ [] →
      ∀ (fuel : Nat) (st : GenState), st.valid_tile_counter ≤ cfg.n_tiles →
        (_random_tiles_generator cfg slide fuel st).1 = [] ∧
        (_random_tiles_generator cfg slide fuel st).2.2 = RunStatus.outOfFuel) := by
  refine ⟨by decide, ?_, ?_⟩
  · intro cfg slide st st' yld h0 hstep
    rw [genStep] at hstep
    cases hc : _random_tile_coordinates cfg slide st.rng with
    | error e =>
      rw [hc] at hstep
      cases hstep
    | ok pr =>
      obtain ⟨coords, rng'⟩ := pr
      rw [hc] at hstep
      dsimp only at hstep
      cases he : slide.extract_tile coords cfg.level with
      | error e =>
        rw [he] at hstep
        cases hstep
      | ok tile =>
        rw [he] at hstep
        dsimp only at hstep
        by_cases ha : (!cfg.check_tissue || tile.has_enough_tissue) = true
        all_goals first
          | (rw [Bool.not_eq_true] at ha
             simp only [ha, Bool.false_eq_true, if_false] at hstep)
          | simp only [ha, eq_self_iff_true, if_true] at hstep
        all_goals simp only [h0, ne_eq, not_true_eq_false, false_and, if_false] at hstep
        all_goals split at hstep
        all_goals cases hstep
        all_goals dsimp only
        all_goals assumption
  · intro cfg slide h0 hct hext hmask fuel
    induction fuel with
    | zero => exact fun st hval => ⟨rfl, rfl⟩
    | succ fuel ih =>
      intro st hval
      obtain ⟨rng', hstep⟩ := genStep_starved cfg slide st h0 hct hext hmask hval
      have hrest := ih ⟨st.iteration + 1, st.valid_tile_counter, rng'⟩ hval
      constructor
      · simp only [_random_tiles_generator, hstep]
        simpa using hrest.1
      · simp only [_random_tiles_generator, hstep]
        simpa using hrest.2

/-- Witness for C10: with `max_iter = 0` on a slide whose tiles never have
enough tissue, 50 loop iterations yield nothing and the loop is still
running. -/
theorem max_iter_zero_starvation_witness :
    (_random_tiles_generator cfgZeroIter slideNoTissue 50 ⟨0, 0, 0⟩).1 = [] ∧
    (_random_tiles_generator cfgZeroIter slideNoTissue 50 ⟨0, 0, 0⟩).2.2 =
      RunStatus.outOfFuel :=
  max_iter_zero_starvation.2.2 cfgZeroIter slideNoTissue rfl rfl
    (fun _ _ => rfl) (by decide) 50 ⟨0, 0, 0⟩ (by decide)

end Histolab
